import Mathlib

/-!
Shallow embedding of `quic/s2n-quic-tls/src/server.rs`: the server-side TLS
provider of s2n-quic, in particular the asynchronous configuration-resolution
bridge (config resolver, client-hello callback adapter, builder and endpoint
glue).  Machine pointers are modelled as natural-number addresses, byte strings
as lists of naturals, and panicking paths as an explicit `panicked` outcome.
-/

namespace S2nQuicTls

/- Engine status codes (`s2n_status_code` in the s2n-tls FFI): `SUCCESS = 0`
and `FAILURE = -1`, as C integers. -/
namespace s2n_status_code

def SUCCESS : Int := 0

def FAILURE : Int := -1

end s2n_status_code

/-- Model of an s2n-tls `Config` handle produced by resolution: an opaque
immutable configuration object, identified by an id. -/
structure Config where
  id : Nat
deriving DecidableEq

/-- Build-time error taxonomy of the TLS builder (`s2n_tls::raw::error::Error`
restricted to the cases the spec names). -/
inductive Error where
  | unsupportedPolicy
  | invalidProtocolList
  | unsupportedCertificateFormat
  | invalidKeyMaterial
  | callbackRegistrationFailed
  | engineConfigurationError
deriving DecidableEq

/-- Model of `core::task::Poll`. -/
inductive Poll (α : Type) where
  | ready (value : α)
  | pending
deriving DecidableEq

/-- Client-Hello Snapshot: the fields of the client's initial handshake
message readable from the native handshake object (server name, offered
protocols), as byte strings. -/
structure ClientHelloSnapshot where
  serverName : Option (List Nat)
  offeredProtocols : List (List Nat)

/-- One poll invocation of a boxed `dyn ConfigResolver`
(`poll_config(&mut Context, client_hello) -> Poll<Result<Config, Error>>`),
modelled as a pure function of the snapshot for a single invocation. -/
def ResolverFun : Type := ClientHelloSnapshot → Poll (Except Error Config)

/-- The callback context struct `ClientHelloCb` (server.rs lines 160-163):
holds the config resolver and the waker (modelled as an opaque token). -/
structure ClientHelloCb where
  config_resolver : ResolverFun
  waker : Nat

/-- The connection-visible state the client-hello callback can mutate:
whether `s2n_client_hello_cb_done` has been called, and which configuration
(if any) has been installed via `set_config_raw`. -/
structure ConnState where
  callbackDone : Bool
  installedConfig : Option Config
deriving DecidableEq

/-- Actions the client-hello callback performs, in source order:
mark the checkpoint done, install a configuration on the connection,
return a status code to the engine. -/
inductive CbEvent where
  | markDone
  | installConfig (config : Config)
  | ret (code : Int)
deriving DecidableEq

/-- Transcription of the match on the resolver's poll outcome
(server.rs lines 176-189) as the sequence of actions performed, in source
order:
* `Ready(Ok(config))`: `client_hello_callback_done`, then `set_config_raw`,
  then return `SUCCESS`;
* `Ready(Err(_))`: return `FAILURE`;
* `Pending`: return `SUCCESS`. -/
def cb_dispatch_events : Poll (Except Error Config) → List CbEvent
  | .ready (.ok config) =>
      [.markDone, .installConfig config, .ret s2n_status_code.SUCCESS]
  | .ready (.error _) => [.ret s2n_status_code.FAILURE]
  | .pending => [.ret s2n_status_code.SUCCESS]

/-- Effect of one callback action on the connection state. -/
def applyEvent (conn : ConnState) : CbEvent → ConnState
  | .markDone => { conn with callbackDone := true }
  | .installConfig config => { conn with installedConfig := some config }
  | .ret _ => conn

/-- Direct transcription of the match on the resolver's poll outcome
(server.rs lines 176-189): the final connection state and the status code
returned to the engine. -/
def cb_dispatch : Poll (Except Error Config) → ConnState → ConnState × Int
  | .ready (.ok config), conn =>
      ({ conn with callbackDone := true, installedConfig := some config },
        s2n_status_code.SUCCESS)
  | .ready (.error _), conn => (conn, s2n_status_code.FAILURE)
  | .pending, conn => (conn, s2n_status_code.SUCCESS)

/-- The two transcriptions of the match agree: folding the event sequence over
the entry state yields exactly the final state of `cb_dispatch`. -/
theorem cb_dispatch_events_state (res : Poll (Except Error Config))
    (conn : ConnState) :
    (cb_dispatch_events res).foldl applyEvent conn = (cb_dispatch res conn).1 := by
  cases res with
  | pending => rfl
  | ready r =>
    cases r with
    | ok config => rfl
    | error e => rfl

/-- Outcome of running code that may panic: a value, or divergence with the
panic message. -/
inductive CbResult (α : Type) where
  | ok (value : α)
  | panicked (msg : String)
deriving DecidableEq

/-- Model of the full callback body `client_hello_cb` (server.rs lines
166-190).  After dereferencing the context and building the future context,
the binding of the snapshot is `let client_hello = todo!()` in the source
(line 174; the accessor call is commented out), which panics with
"not yet implemented"; only if a snapshot were produced would the resolver be
polled and the result dispatched. -/
def client_hello_cb (context : ClientHelloCb) (conn : ConnState) :
    CbResult (ConnState × Int) :=
  match (CbResult.panicked "not yet implemented" : CbResult ClientHelloSnapshot) with
  | .panicked msg => .panicked msg
  | .ok client_hello =>
      .ok (cb_dispatch (context.config_resolver client_hello) conn)

/-- `eventPrecedes a b events` holds when the first occurrence of `a` comes
strictly before the first occurrence of `b` in the action sequence. -/
def eventPrecedes (a b : CbEvent) (events : List CbEvent) : Prop :=
  List.indexOf a events < List.indexOf b events

instance (a b : CbEvent) (events : List CbEvent) :
    Decidable (eventPrecedes a b events) := by
  unfold eventPrecedes
  infer_instance

/-- A sample resolved configuration, used for concrete evaluations. -/
def sampleConfig : Config := ⟨7⟩

/-- A sample entry connection state: checkpoint not done, nothing installed. -/
def initConn : ConnState := ⟨false, none⟩

/-- Client-hello callback mode (`s2n_client_hello_cb_mode`). -/
inductive CbMode where
  | nonblocking
deriving DecidableEq

/-- State accumulated by the external s2n-tls `config::Builder` the server
builder delegates to.  Pointers (key-log context) are modelled as natural
addresses; the client-hello callback registration records the opaque context
pointer passed alongside `client_hello_cb`. -/
structure ConfigBuilder where
  quicEnabled : Bool
  securityPolicy : List Nat
  applicationProtocols : List (List Nat)
  configResolver : Option ResolverFun
  keyLogCallback : Option Nat
  clientHelloCbMode : Option CbMode
  clientHelloCallback : Option Nat

/-- The empty external config builder (`config::Builder::default()`). -/
def ConfigBuilder.empty : ConfigBuilder :=
  { quicEnabled := false
    securityPolicy := []
    applicationProtocols := []
    configResolver := none
    keyLogCallback := none
    clientHelloCbMode := none
    clientHelloCallback := none }

/-- Modelled from the spec: `enable_quic` on the external s2n-tls config
builder (repository code not under src/); enables QUIC support, succeeding. -/
def ConfigBuilder.enable_quic (c : ConfigBuilder) : Except Error ConfigBuilder :=
  .ok { c with quicEnabled := true }

/-- Modelled from the spec: `set_security_policy` on the external s2n-tls
config builder; records the policy identifier ("fails with UnsupportedPolicy
if the identifier is unknown" — known identifiers succeed, and the model only
ever receives the known default). -/
def ConfigBuilder.set_security_policy (c : ConfigBuilder) (policy : List Nat) :
    Except Error ConfigBuilder :=
  .ok { c with securityPolicy := policy }

/-- Modelled from the spec: `set_application_protocol_preference` on the
external s2n-tls config builder; "fails with InvalidProtocolList if empty or
containing zero-length entries", otherwise records the ALPN preference. -/
def ConfigBuilder.set_application_protocol_preference (c : ConfigBuilder)
    (protocols : List (List Nat)) : Except Error ConfigBuilder :=
  if protocols.isEmpty ∨ protocols.any (fun p => p.isEmpty) then
    .error .invalidProtocolList
  else
    .ok { c with applicationProtocols := protocols }

/-- Modelled from the spec: `set_config_resolver` on the external s2n-tls
config builder; registers the resolver with the engine configuration
("attaches a Config Resolver", registration succeeding). -/
def ConfigBuilder.set_config_resolver (c : ConfigBuilder) (r : ResolverFun) :
    Except Error ConfigBuilder :=
  .ok { c with configResolver := some r }

/-- Modelled from the spec: `set_key_log_callback` on the external s2n-tls
config builder; stores the key-log callback context address, or clears the
callback when given `none` (the `(None, null_mut())` call). -/
def ConfigBuilder.set_key_log_callback (c : ConfigBuilder)
    (callback : Option Nat) : Except Error ConfigBuilder :=
  .ok { c with keyLogCallback := callback }

/-- Modelled from the spec: `set_client_hello_callback_mode` on the external
s2n-tls config builder; records the checkpoint callback mode. -/
def ConfigBuilder.set_client_hello_callback_mode (c : ConfigBuilder)
    (mode : CbMode) : Except Error ConfigBuilder :=
  .ok { c with clientHelloCbMode := some mode }

/-- Modelled from the spec: `set_client_hello_callback` on the external
s2n-tls config builder; registers the client-hello checkpoint callback with
the given opaque context pointer. -/
def ConfigBuilder.set_client_hello_callback (c : ConfigBuilder)
    (context : Nat) : Except Error ConfigBuilder :=
  .ok { c with clientHelloCallback := some context }

/-- The finalized engine configuration a `Server` holds. -/
structure BuiltConfig where
  securityPolicy : List Nat
  applicationProtocols : List (List Nat)
  configResolver : Option ResolverFun
  keyLogCallback : Option Nat
  clientHelloCbMode : Option CbMode
  clientHelloCallback : Option Nat

/-- Modelled from the spec: finalizing the external config builder
(`config::Builder::build`); carries the accumulated settings into the
immutable configuration (finalize-time engine rejection not exercised by the
settings this file builds). -/
def ConfigBuilder.buildConfig (c : ConfigBuilder) : Except Error BuiltConfig :=
  .ok { securityPolicy := c.securityPolicy
        applicationProtocols := c.applicationProtocols
        configResolver := c.configResolver
        keyLogCallback := c.keyLogCallback
        clientHelloCbMode := c.clientHelloCbMode
        clientHelloCallback := c.clientHelloCallback }

/-- The `security::DEFAULT_TLS13` policy identifier, as an opaque byte tag. -/
def DEFAULT_TLS13 : List Nat := [13]

/-- The byte string "h3". -/
def h3 : List Nat := [104, 51]

/-- The server builder struct (server.rs lines 47-51). -/
structure Builder where
  config : ConfigBuilder
  keylog : Option Nat
  config_resolver : Option ResolverFun

/-- `Builder::default()` (server.rs lines 53-71): starts from the empty
external config builder, then `enable_quic().unwrap()`,
`set_security_policy(&security::DEFAULT_TLS13).unwrap()`,
`set_application_protocol_preference(&[b"h3"]).unwrap()`.  Each setter
succeeds on these inputs, so the error fallbacks below are unreachable. -/
def Builder.mkDefault : Builder :=
  let c0 := ConfigBuilder.empty
  let c1 := match c0.enable_quic with | .ok c => c | .error _ => c0
  let c2 := match c1.set_security_policy DEFAULT_TLS13 with
    | .ok c => c | .error _ => c1
  let c3 := match c2.set_application_protocol_preference [h3] with
    | .ok c => c | .error _ => c2
  { config := c3, keylog := none, config_resolver := none }

/-- `Builder::with_config_resolver` (server.rs lines 74-80): forwards the
resolver to the external config builder's `set_config_resolver`; the
`Builder`'s own `config_resolver` field is left untouched. -/
def Builder.with_config_resolver (b : Builder) (config_resolver : ResolverFun) :
    Except Error Builder :=
  match b.config.set_config_resolver config_resolver with
  | .ok config => .ok { b with config := config }
  | .error e => .error e

/-- `Builder::with_application_protocols` (server.rs lines 82-88). -/
def Builder.with_application_protocols (b : Builder)
    (protocols : List (List Nat)) : Except Error Builder :=
  match b.config.set_application_protocol_preference protocols with
  | .ok config => .ok { b with config := config }
  | .error e => .error e

/-- `Builder::with_alpn_protocols` (server.rs lines 90-96), the deprecated
alias: delegates to `with_application_protocols`. -/
def Builder.with_alpn_protocols (b : Builder) (protocols : List (List Nat)) :
    Except Error Builder :=
  b.with_application_protocols protocols

/-- `Builder::with_key_logging` (server.rs lines 118-136).  The result of the
external `KeyLog::try_open()` (the opened handle's address, or `none` on
failure to open) is passed as a parameter; the source stores it in
`self.keylog` and then either installs the key-log callback with the handle's
address or clears the callback. -/
def Builder.with_key_logging (b : Builder) (tryOpen : Option Nat) :
    Except Error Builder :=
  let b := { b with keylog := tryOpen }
  match b.keylog with
  | some keylog =>
    match b.config.set_key_log_callback (some keylog) with
    | .ok config => .ok { b with config := config }
    | .error e => .error e
  | none =>
    match b.config.set_key_log_callback none with
    | .ok config => .ok { b with config := config }
    | .error e => .error e

/-- The server endpoint struct (server.rs lines 25-31).  The cached
transport-parameter state `params` is modelled as encoded bytes. -/
structure Server where
  config : BuiltConfig
  keylog : Option Nat
  config_resolver : Option ResolverFun
  params : List Nat

/-- `Builder::build` (server.rs lines 138-158): sets the client-hello
callback mode to NONBLOCKING, then — unconditionally, the
`if let Some(config_resolver)` guard being commented out in the source —
registers `client_hello_cb` with the opaque context pointer
`4 as *mut c_void` (line 144), finalizes the external config builder, and
assembles the `Server` from it, the keylog handle and the builder's (never
populated) `config_resolver` field. -/
def Builder.build (b : Builder) : Except Error Server :=
  match b.config.set_client_hello_callback_mode CbMode.nonblocking with
  | .error e => .error e
  | .ok config =>
    let context : Nat := 4
    match config.set_client_hello_callback context with
    | .error e => .error e
    | .ok config =>
      match config.buildConfig with
      | .error e => .error e
      | .ok built =>
        .ok { config := built
              keylog := b.keylog
              config_resolver := b.config_resolver
              params := [] }

/-- Endpoint role of a session. -/
inductive EndpointType where
  | server
  | client
deriving DecidableEq

/-- Modelled from the spec: `Session` (quic/s2n-quic-tls/src/session.rs, not
under src/) — the per-connection handshake object; it "wraps the native
handshake object plus a retained config resolver if resolution was deferred",
holding the endpoint type, the configuration, the encoded transport
parameters, and the handed-off resolver. -/
structure Session where
  endpointType : EndpointType
  config : BuiltConfig
  params : List Nat
  config_resolver : Option ResolverFun

/-- Modelled from the spec: `Session::new` (not under src/) — constructs the
per-connection session retaining exactly what it is handed. -/
def Session.new (endpointType : EndpointType) (config : BuiltConfig)
    (params : List Nat) (config_resolver : Option ResolverFun) : Session :=
  { endpointType := endpointType
    config := config
    params := params
    config_resolver := config_resolver }

/-- `Server::new_server_session` (server.rs lines 195-201): clones the
config, `take()`s the server's `config_resolver` (leaving `none` behind), and
constructs the session with them.  Returns the updated server together with
the new session. -/
def Server.new_server_session (s : Server) (params : List Nat) :
    Server × Session :=
  let config := s.config
  let config_resolver := s.config_resolver
  let s := { s with config_resolver := none }
  (s, Session.new EndpointType.server config params config_resolver)

/-- `Server::new_client_session` (server.rs lines 203-209): unconditionally
`panic!("cannot create a client session from a server config")`. -/
def Server.new_client_session (_s : Server) (_params : List Nat)
    (_server_name : List Nat) : CbResult Session :=
  .panicked "cannot create a client session from a server config"

/-- A resolver that immediately resolves to `sampleConfig`, used for
concrete endpoint scenarios. -/
def sampleResolver : ResolverFun := fun _ => Poll.ready (Except.ok sampleConfig)

/-- The concrete scenario for resolver hand-off: register `sampleResolver`
via `with_config_resolver` on the default builder, then `build()`. -/
def serverWithResolver : Except Error Server :=
  match Builder.mkDefault.with_config_resolver sampleResolver with
  | .ok b => b.build
  | .error e => .error e

/-- C1 counterexample: at a `Pending` poll outcome the dispatch returns
`SUCCESS` — exactly the engine's success code, the same code the
`Ready(Ok(_))` branch returns — so the returned code is not distinct from the
engine's success code. -/
theorem c1_pending_code_equals_success_code :
    (cb_dispatch Poll.pending initConn).2 = s2n_status_code.SUCCESS ∧
    (cb_dispatch Poll.pending initConn).2 =
      (cb_dispatch (Poll.ready (Except.ok sampleConfig)) initConn).2 :=
  ⟨rfl, rfl⟩

/-- C1 (amended): at a `Pending` poll outcome the dispatch installs no
configuration and does not mark the checkpoint done — its only action is
returning the engine's success code; the pending case is distinguished from
the proceed case by the checkpoint not being marked done, not by a distinct
status code. -/
theorem c1_pending_installs_nothing (conn : ConnState) :
    cb_dispatch Poll.pending conn = (conn, s2n_status_code.SUCCESS) ∧
    cb_dispatch_events Poll.pending = [CbEvent.ret s2n_status_code.SUCCESS] :=
  ⟨rfl, rfl⟩

/-- C1 witness: the amended statement at the sample entry state. -/
theorem c1_pending_installs_nothing_witness :
    cb_dispatch Poll.pending initConn = (initConn, s2n_status_code.SUCCESS) ∧
    cb_dispatch_events Poll.pending = [CbEvent.ret s2n_status_code.SUCCESS] :=
  c1_pending_installs_nothing initConn

/-- C2: every invocation of `client_hello_cb` panics (the snapshot binding is
`todo!()` in the source) before the resolver is consulted, for every callback
context and connection state — contradicting the claim that the callback
never diverges before the resolver is consulted. -/
theorem c2_callback_panics_before_resolver (context : ClientHelloCb)
    (conn : ConnState) :
    client_hello_cb context conn = CbResult.panicked "not yet implemented" :=
  rfl

/-- C3: for every builder, `build()` succeeds and registers the client-hello
callback with the opaque context pointer equal to the literal address `4`,
independent of the builder (in particular of any registered resolver): the
pointer is never the address of a `ClientHelloCb` allocation, since no such
allocation is performed. -/
theorem c3_context_pointer_is_literal_four (b : Builder) :
    ∃ s : Server, b.build = Except.ok s ∧
      s.config.clientHelloCallback = some 4 :=
  ⟨_, rfl, rfl⟩

/-- C4 counterexample: in the `Ready(Ok(_))` branch the checkpoint-done call
is the first action and the installation only the second, so the installation
does not precede the proceed signal (which the claim takes to include marking
the checkpoint done). -/
theorem c4_done_precedes_install :
    cb_dispatch_events (Poll.ready (Except.ok sampleConfig)) =
      [CbEvent.markDone, CbEvent.installConfig sampleConfig,
        CbEvent.ret s2n_status_code.SUCCESS] ∧
    ¬ eventPrecedes (CbEvent.installConfig sampleConfig) CbEvent.markDone
        (cb_dispatch_events (Poll.ready (Except.ok sampleConfig))) :=
  ⟨rfl, by decide⟩

/-- C4 (amended): at a `Ready(Ok(config))` poll outcome the dispatch installs
`config` on the connection and returns the engine's proceed code, the
installation happening after the checkpoint is marked done and before the
proceed code is returned; the final state has `config` installed and the
checkpoint done. -/
theorem c4_resolved_installs_and_proceeds (config : Config) (conn : ConnState) :
    cb_dispatch_events (Poll.ready (Except.ok config)) =
      [CbEvent.markDone, CbEvent.installConfig config,
        CbEvent.ret s2n_status_code.SUCCESS] ∧
    (cb_dispatch (Poll.ready (Except.ok config)) conn).1.installedConfig =
      some config ∧
    (cb_dispatch (Poll.ready (Except.ok config)) conn).1.callbackDone = true ∧
    (cb_dispatch (Poll.ready (Except.ok config)) conn).2 =
      s2n_status_code.SUCCESS :=
  ⟨rfl, rfl, rfl, rfl⟩

/-- C4 witness: the amended statement at the sample configuration and entry
state. -/
theorem c4_resolved_installs_and_proceeds_witness :
    cb_dispatch_events (Poll.ready (Except.ok sampleConfig)) =
      [CbEvent.markDone, CbEvent.installConfig sampleConfig,
        CbEvent.ret s2n_status_code.SUCCESS] ∧
    (cb_dispatch (Poll.ready (Except.ok sampleConfig)) initConn).1.installedConfig =
      some sampleConfig ∧
    (cb_dispatch (Poll.ready (Except.ok sampleConfig)) initConn).1.callbackDone =
      true ∧
    (cb_dispatch (Poll.ready (Except.ok sampleConfig)) initConn).2 =
      s2n_status_code.SUCCESS :=
  c4_resolved_installs_and_proceeds sampleConfig initConn

/-- C5: at a `Ready(Err(_))` poll outcome the dispatch returns `FAILURE` (the
engine's abort code, distinct from the success code) and leaves the
connection untouched: its only action is the abort return, so no
configuration is ever installed on the error path. -/
theorem c5_failed_aborts_installs_nothing (e : Error) (conn : ConnState) :
    cb_dispatch (Poll.ready (Except.error e)) conn =
      (conn, s2n_status_code.FAILURE) ∧
    cb_dispatch_events (Poll.ready (Except.error e)) =
      [CbEvent.ret s2n_status_code.FAILURE] ∧
    s2n_status_code.FAILURE ≠ s2n_status_code.SUCCESS :=
  ⟨rfl, rfl, by decide⟩

/-- C5 witness: the statement at a concrete error and the sample entry
state. -/
theorem c5_failed_aborts_installs_nothing_witness :
    cb_dispatch (Poll.ready (Except.error Error.engineConfigurationError))
        initConn = (initConn, s2n_status_code.FAILURE) ∧
    cb_dispatch_events (Poll.ready (Except.error Error.engineConfigurationError)) =
      [CbEvent.ret s2n_status_code.FAILURE] ∧
    s2n_status_code.FAILURE ≠ s2n_status_code.SUCCESS :=
  c5_failed_aborts_installs_nothing Error.engineConfigurationError initConn

/-- C6: registering `sampleResolver` and building succeeds with the resolver
recorded on the engine configuration, yet the server's own `config_resolver`
field is `none`, so neither the first session created by
`new_server_session` nor any later one receives the registered resolver. -/
theorem c6_sessions_never_receive_resolver :
    (serverWithResolver.map fun s =>
      (s.config.configResolver.isSome,
        s.config_resolver.isNone,
        ((s.new_server_session []).2).config_resolver.isNone,
        (((s.new_server_session []).1.new_server_session []).2).config_resolver.isNone)) =
      Except.ok (true, true, true, true) :=
  rfl

/-- C7: on the default builder — no resolver ever attached, both resolver
fields empty — `build()` still registers the client-hello checkpoint callback
(with context pointer `4`): registration is unconditional, not tied to a
resolver being attached. -/
theorem c7_default_build_registers_callback :
    Builder.mkDefault.config_resolver = none ∧
    Builder.mkDefault.config.configResolver = none ∧
    (Builder.mkDefault.build.map fun s => s.config.clientHelloCallback) =
      Except.ok (some 4) :=
  ⟨rfl, rfl, rfl⟩

/-- C8: for every builder, when `KeyLog::try_open` fails (returns `none`),
`with_key_logging` still succeeds, the resulting builder has no keylog handle
and the key-log callback cleared, and a subsequent `build()` succeeds with
key logging disabled on the resulting configuration. -/
theorem c8_keylog_open_failure_nonfatal (b : Builder) :
    ∃ b2 : Builder, b.with_key_logging none = Except.ok b2 ∧
      b2.keylog = none ∧ b2.config.keyLogCallback = none ∧
      ∃ s : Server, b2.build = Except.ok s ∧ s.keylog = none ∧
        s.config.keyLogCallback = none :=
  ⟨_, rfl, rfl, rfl, _, rfl, rfl, rfl⟩

/-- C9: for every server, transport parameters and server name,
`new_client_session` panics with the role-mismatch message rather than
returning a session or an error value. -/
theorem c9_client_session_always_panics (s : Server) (tp : List Nat)
    (server_name : List Nat) :
    s.new_client_session tp server_name =
      CbResult.panicked "cannot create a client session from a server config" :=
  rfl

/-- C10: for every builder and protocols argument, the deprecated
`with_alpn_protocols` returns exactly the same result as
`with_application_protocols`: the alias is an unchanged delegation. -/
theorem c10_alpn_alias_is_delegation (b : Builder)
    (protocols : List (List Nat)) :
    b.with_alpn_protocols protocols = b.with_application_protocols protocols :=
  rfl

end S2nQuicTls
